import Mathlib

set_option maxHeartbeats 1000000

/-!
Shallow embedding of the dataset-assembly pipeline in
`src/datasets/blender.py` (class `BlenderDatasetBase.setup`, the two
dataset views `BlenderDataset` / `BlenderIterableDataset`, and the
`BlenderDataModule.setup` split wiring).

Conventions of the embedding:
* Python floats are modelled as exact numbers: `ℚ` for the resolution
  and intrinsics arithmetic (all inputs there are integers or JSON
  rationals), `ℝ` for pose translations and the Euclidean-norm based
  rescale step (which needs `Real.sqrt`).
* `math.tan` is an external numeric collaborator; the intrinsics
  derivation is parametrised by an arbitrary function `t : ℚ → ℚ`
  standing for it, so every theorem holds for the real tangent as well.
* Fallible code paths (missing config keys — `raise KeyError`, the
  `assert` on the aspect ratio, missing metadata fields) are modelled
  with `Except SetupErr`.
* The bare `try/except` probing of the six calibrated metadata fields
  (`fl_x, fl_y, cx, cy, k1, k2`) succeeds exactly when all six are
  present, so it is embedded as a total all-present check
  (`calibratedFields`).
-/

/-- Errors that abort `BlenderDatasetBase.setup`: the explicit
`raise KeyError` / a `KeyError` escaping from a metadata lookup, and the
`assert round(W / w * h) == H` aspect-ratio check. -/
inductive SetupErr where
  | keyError
  | assertionError
deriving DecidableEq

/-- Python's built-in `round` (round half to even) on an exact rational,
as used in `assert round(W / w * h) == H` (blender.py line 37). -/
def pyRound (x : ℚ) : ℤ :=
  let n := Int.floor x
  let r := x - (n : ℚ)
  if r < 1/2 then n
  else if 1/2 < r then n + 1
  else if n % 2 = 0 then n else n + 1

/-- Native resolution from the metadata document (blender.py lines 30-33):
both `w` and `h` must be present, otherwise the default is 800x800. -/
def metaWH (mw mh : Option ℤ) : ℤ × ℤ :=
  match mw, mh with
  | some W, some H => (W, H)
  | _, _ => (800, 800)

/-- Target-resolution policy (blender.py lines 35-41): `img_wh` is
checked first; if present the aspect-ratio assertion must hold; else
`img_downscale` is used with Python floor division; else `KeyError`. -/
def resolveWH (img_wh : Option (ℤ × ℤ)) (img_downscale : Option ℤ) (W H : ℤ) :
    Except SetupErr (ℤ × ℤ) :=
  match img_wh with
  | some (w, h) =>
    if pyRound ((W : ℚ) / (w : ℚ) * (h : ℚ)) = H then Except.ok (w, h)
    else Except.error SetupErr.assertionError
  | none =>
    match img_downscale with
    | some d => Except.ok (Int.fdiv W d, Int.fdiv H d)
    | none => Except.error SetupErr.keyError

/-- Camera intrinsics as assembled by `setup`
(fields `focal_x, focal_y, cx, cy, k1, k2`). -/
structure Intrinsics where
  focal_x : ℚ
  focal_y : ℚ
  cx : ℚ
  cy : ℚ
  k1 : ℚ
  k2 : ℚ
deriving DecidableEq

/-- A camera-to-world pose: the top-left 3x4 block of a frame's
`transform_matrix`. -/
abbrev Pose := Fin 3 → Fin 4 → ℝ

/-- One entry of the metadata `frames` array. -/
structure FrameMeta where
  transform_matrix : Fin 4 → Fin 4 → ℝ
  file_path : String

/-- The `transforms_{split}.json` metadata document (the fields
`setup` reads; every numeric field may be absent). -/
structure MetaDoc where
  w : Option ℤ
  h : Option ℤ
  camera_angle_x : Option ℚ
  fl_x : Option ℚ
  fl_y : Option ℚ
  cx : Option ℚ
  cy : Option ℚ
  k1 : Option ℚ
  k2 : Option ℚ
  frames : List FrameMeta

/-- The `try` block of blender.py lines 48-55 reads the six calibrated
fields in sequence; a bare `except` catches the `KeyError` from the
first missing one. Net effect: the calibrated values are used iff all
six are present. -/
def calibratedFields (m : MetaDoc) : Option (ℚ × ℚ × ℚ × ℚ × ℚ × ℚ) :=
  match m.fl_x, m.fl_y, m.cx, m.cy, m.k1, m.k2 with
  | some fx, some fy, some cx, some cy, some k1, some k2 =>
    some (fx, fy, cx, cy, k1, k2)
  | _, _, _, _, _, _ => none

/-- Intrinsics resolution (blender.py lines 48-63) for target resolution
`(w, h)`. The `Bool` in the result is the `c3vd_data` flag. On the
fallback path: `focal_x = focal_y = 0.5 * w / tan(0.5 * camera_angle_x)`,
`cx = w // 2`, `cy = h // 2` (Python floor division), `k1 = k2 = 0`;
a missing `camera_angle_x` escapes as a `KeyError`. `t` stands for
`math.tan`. -/
def resolveIntrinsics (t : ℚ → ℚ) (m : MetaDoc) (w h : ℤ) :
    Except SetupErr (Intrinsics × Bool) :=
  match calibratedFields m with
  | some (fx, fy, cx, cy, k1, k2) =>
    Except.ok ({ focal_x := fx, focal_y := fy, cx := cx, cy := cy,
                 k1 := k1, k2 := k2 }, true)
  | none =>
    match m.camera_angle_x with
    | some a =>
      Except.ok ({ focal_x := 1/2 * (w : ℚ) / t (1/2 * a),
                   focal_y := 1/2 * (w : ℚ) / t (1/2 * a),
                   cx := ((Int.fdiv w 2 : ℤ) : ℚ),
                   cy := ((Int.fdiv h 2 : ℤ) : ℚ),
                   k1 := 0, k2 := 0 }, false)
    | none => Except.error SetupErr.keyError

/-- Scrubbing the six calibrated fields from a document; used to state
that the fallback path depends on none of them. -/
def scrubCalibrated (m : MetaDoc) : MetaDoc :=
  { m with fl_x := none, fl_y := none, cx := none, cy := none,
           k1 := none, k2 := none }

/-- A decoded image tensor of shape (h, w, channels):
`data c r col` is the value of channel `c` at pixel `(r, col)`.
`TF.to_tensor` normalizes samples to [0,1]; values are modelled in ℚ. -/
structure Img where
  channels : ℕ
  data : ℕ → ℕ → ℕ → ℚ

/-- The sibling depth-resource path substitution of blender.py line 84:
`img_path.replace("images", "depths").replace("color.png", "depth.tiff")`. -/
def depthPath (p : String) : String :=
  String.replace (String.replace p ("images") ("depths")) ("color.png") ("depth.tiff")

/-- The coordinate-convention flip of blender.py line 74
(`c2w[:3, 1:3] *= -1`, applied only when `c3vd_data` is set):
columns 1 and 2 of the pose are negated. -/
def c3vdFlip (c3vd : Bool) (p : Pose) : Pose :=
  fun i j => if c3vd ∧ (j = 1 ∨ j = 2) then -(p i j) else p i j

/-- The mask policy of blender.py lines 82-94. `depthAt path r c` is the
channel-0 value of the decoded depth resource at `path` (an external
resource oracle). Branches, in source order:
masking enabled and `c3vd_data` → depth-derived mask (0 where depth is 0,
1 elsewhere); masking enabled otherwise → the image's last channel
(`img[..., -1]`); masking disabled → all ones. -/
def loadFrameMask (apply_mask c3vd : Bool) (img_path : String) (img : Img)
    (depthAt : String → ℕ → ℕ → ℚ) : ℕ → ℕ → ℚ :=
  if apply_mask then
    if c3vd then
      let depth := depthAt (depthPath img_path)
      fun r c => if depth r c = 0 then 0 else 1
    else img.data (img.channels - 1)
  else fun _ _ => 1

/-- Per-frame translation norm: the Euclidean norm of column 3 of the
pose, i.e. one entry of `all_c2w[..., 3].norm(p=2, dim=-1)`
(blender.py line 112). -/
noncomputable def tnorm (p : Pose) : ℝ :=
  Real.sqrt (p 0 3 ^ 2 + p 1 3 ^ 2 + p 2 3 ^ 2)

/-- `all_c2w[..., 3].norm(p=2, dim=-1).min()` over the assembled pose
list (blender.py line 112); the empty case cannot occur in the source
(torch `.min()` of an empty tensor raises) and is given a junk value. -/
noncomputable def minNorm : List Pose → ℝ
  | [] => 0
  | p :: ps => ps.foldl (fun acc q => min acc (tnorm q)) (tnorm p)

/-- The rescale-factor policy of blender.py lines 106-113: key absent →
1.0; key present and truthy (nonzero) → that value; key present and
falsy → the auto-scale minimum translation norm. -/
noncomputable def sceneScale (cam_downscale : Option ℝ) (poses : List Pose) : ℝ :=
  match cam_downscale with
  | none => 1
  | some v => if v ≠ 0 then v else minNorm poses

/-- `all_c2w[..., 3] /= scale` (blender.py line 114) on one pose:
only column 3 (the translation) is divided. -/
noncomputable def rescalePose (s : ℝ) (p : Pose) : Pose :=
  fun i j => if j = 3 then p i j / s else p i j

/-- `all_c2w[..., 3] /= scale` on the whole assembled pose list. -/
noncomputable def rescaleTranslations (s : ℝ) (poses : List Pose) : List Pose :=
  poses.map (rescalePose s)

/-- Records handed to the external batching collaborator: `{}` from the
streaming view, `{'index': index}` from the indexed view. -/
inductive Record where
  | empty
  | indexed (index : ℤ)
deriving DecidableEq

/-- The state held by `BlenderDataset` that `__len__`/`__getitem__`
could in principle consult (the assembled per-frame tensors). -/
structure BlenderData where
  all_images : List Img
  all_fg_masks : List (ℕ → ℕ → ℚ)

/-- `BlenderDataset.__len__` (blender.py lines 121-122). -/
def blenderLen (d : BlenderData) : ℕ := d.all_images.length

/-- `BlenderDataset.__getitem__` (blender.py lines 124-127): returns
`{'index': index}` for any integer, touching no data and performing no
bounds check. -/
def blenderGetitem (d : BlenderData) (index : ℤ) : Record :=
  Record.indexed index

/-- One pull from `BlenderIterableDataset.__iter__`
(blender.py lines 134-136, `while True: yield {}`): the generator state
is trivial and every pull yields the empty record. -/
def blenderIterNext (s : Unit) : Option (Record × Unit) :=
  some (Record.empty, ())

/-- The result of the (n+1)-th pull from the streaming view, after n
earlier pulls: `none` would mean the iterator terminated. -/
def iterPull : ℕ → Unit → Option (Record × Unit)
  | 0, s => blenderIterNext s
  | n + 1, s =>
    match blenderIterNext s with
    | some (_, s') => iterPull n s'
    | none => none

/-- Which access pattern a constructed dataset object uses. -/
inductive DatasetKind where
  | iterable
  | indexed
deriving DecidableEq

/-- The split-name configuration surface consumed by
`BlenderDataModule.setup` (blender.py lines 145-153). There is no
predict-specific split key. -/
structure DMConfig where
  train_split : String
  val_split : String
  test_split : String

/-- The four dataset slots of `BlenderDataModule` after `setup`;
`none` means the slot was not constructed for the given stage. Each
constructed slot records its access pattern and the split identifier it
was built over. -/
structure DMState where
  train_dataset : Option (DatasetKind × String)
  val_dataset : Option (DatasetKind × String)
  test_dataset : Option (DatasetKind × String)
  predict_dataset : Option (DatasetKind × String)

/-- `BlenderDataModule.setup(stage)` (blender.py lines 145-153): four
independent `if stage in [...]` checks; the predict slot is built over
`config.train_split`. -/
def dmSetup (cfg : DMConfig) (stage : Option String) : DMState :=
  { train_dataset :=
      if stage = none ∨ stage = some ("fit") then
        some (DatasetKind.iterable, cfg.train_split) else none,
    val_dataset :=
      if stage = none ∨ stage = some ("fit") ∨ stage = some ("validate") then
        some (DatasetKind.indexed, cfg.val_split) else none,
    test_dataset :=
      if stage = none ∨ stage = some ("test") then
        some (DatasetKind.indexed, cfg.test_split) else none,
    predict_dataset :=
      if stage = none ∨ stage = some ("predict") then
        some (DatasetKind.indexed, cfg.train_split) else none }

/-- Concrete 3-channel (RGB, no alpha) image with `data c r col = c`. -/
def exImg3 : Img := { channels := 3, data := fun c _ _ => (c : ℚ) }

/-- Concrete depth-resource oracle (everywhere nonzero). -/
def exDepthAt : String → ℕ → ℕ → ℚ := fun _ _ _ => 7

/-- Concrete pose with translation (1, 0, 0). -/
noncomputable def pOne : Pose := fun i j => if i = 0 ∧ j = 3 then 1 else 0

/-- Concrete pose with translation (0, 2, 0). -/
noncomputable def pTwo : Pose := fun i j => if i = 1 ∧ j = 3 then 2 else 0

/-- Concrete pose with zero translation but nonzero rotation block. -/
noncomputable def zPose : Pose := fun _ j => if j = 3 then 0 else 1

/-- The all-zero pose. -/
noncomputable def zAll : Pose := fun _ _ => 0

/-- Concrete metadata document with no calibrated fields, odd target
dimensions are supplied at the call sites. -/
def metaOdd : MetaDoc :=
  { w := none, h := none, camera_angle_x := some 1, fl_x := none,
    fl_y := none, cx := none, cy := none, k1 := none, k2 := none,
    frames := [] }

/-- Concrete metadata document with no calibrated fields and
`camera_angle_x = 2`. -/
def metaFOV : MetaDoc :=
  { w := none, h := none, camera_angle_x := some 2, fl_x := none,
    fl_y := none, cx := none, cy := none, k1 := none, k2 := none,
    frames := [] }

/-- Concrete metadata document with some calibrated fields present
(`fl_x, cx, cy, k1, k2`) but `fl_y` missing. -/
def metaPartial : MetaDoc :=
  { w := none, h := none, camera_angle_x := some 1, fl_x := some 100,
    fl_y := none, cx := some 5, cy := some 6, k1 := some 0, k2 := some 0,
    frames := [] }

/-- Any disjunction of missing calibrated fields lands the probe in the
fallback case. -/
theorem calibratedFields_eq_none (m : MetaDoc)
    (hmiss : m.fl_x = none ∨ m.fl_y = none ∨ m.cx = none ∨ m.cy = none ∨
      m.k1 = none ∨ m.k2 = none) :
    calibratedFields m = none := by
  unfold calibratedFields
  cases h1 : m.fl_x <;> cases h2 : m.fl_y <;> cases h3 : m.cx <;>
    cases h4 : m.cy <;> cases h5 : m.k1 <;> cases h6 : m.k2 <;> simp_all

/-- The translation norm is nonnegative. -/
theorem tnorm_nonneg (p : Pose) : 0 ≤ tnorm p := Real.sqrt_nonneg _

/-- A pose with a nonzero translation component has positive norm. -/
theorem tnorm_pos (p : Pose) (h : ∃ i : Fin 3, p i 3 ≠ 0) : 0 < tnorm p := by
  obtain ⟨i, hi⟩ := h
  refine Real.sqrt_pos.mpr ?_
  have key : 0 < p i 3 ^ 2 := (sq_nonneg _).lt_of_ne (Ne.symm (pow_ne_zero 2 hi))
  have h0 := sq_nonneg (p 0 3)
  have h1 := sq_nonneg (p 1 3)
  have h2 := sq_nonneg (p 2 3)
  have hcase : i = 0 ∨ i = 1 ∨ i = 2 := by
    rcases i with ⟨iv, hv⟩
    interval_cases iv <;> simp [Fin.ext_iff]
  rcases hcase with rfl | rfl | rfl <;> linarith

/-- A fold of `min` over translation norms is attained at some listed
pose (or the seed). -/
theorem foldl_min_tnorm_attained (l : List Pose) :
    ∀ c : Pose, ∃ x, (x = c ∨ x ∈ l) ∧
      List.foldl (fun acc q => min acc (tnorm q)) (tnorm c) l = tnorm x := by
  induction l with
  | nil => intro c; exact ⟨c, Or.inl rfl, rfl⟩
  | cons b bs ih =>
    intro c
    have hstep : List.foldl (fun acc q => min acc (tnorm q)) (tnorm c) (b :: bs) =
        List.foldl (fun acc q => min acc (tnorm q)) (min (tnorm c) (tnorm b)) bs := rfl
    rcases le_total (tnorm c) (tnorm b) with hcb | hbc
    · obtain ⟨x, hx, he⟩ := ih c
      refine ⟨x, ?_, ?_⟩
      · rcases hx with h | h
        · exact Or.inl h
        · exact Or.inr (List.mem_cons_of_mem _ h)
      · rw [hstep, min_eq_left hcb]; exact he
    · obtain ⟨x, hx, he⟩ := ih b
      refine ⟨x, ?_, ?_⟩
      · rcases hx with h | h
        · exact Or.inr (by simp [h])
        · exact Or.inr (List.mem_cons_of_mem _ h)
      · rw [hstep, min_eq_right hbc]; exact he

/-- The auto-scale minimum is the norm of one of the assembled poses. -/
theorem minNorm_attained (poses : List Pose) (h : poses ≠ []) :
    ∃ x ∈ poses, minNorm poses = tnorm x := by
  match poses with
  | [] => exact absurd rfl h
  | p :: ps =>
    obtain ⟨x, hx, he⟩ := foldl_min_tnorm_attained ps p
    refine ⟨x, ?_, he⟩
    rcases hx with h' | h'
    · simp [h']
    · exact List.mem_cons_of_mem _ h'

/-- If every assembled pose has a nonzero translation, the auto-scale
minimum is strictly positive. -/
theorem minNorm_pos (poses : List Pose) (hne : poses ≠ [])
    (hall : ∀ p ∈ poses, ∃ i : Fin 3, p i 3 ≠ 0) : 0 < minNorm poses := by
  obtain ⟨x, hx, he⟩ := minNorm_attained poses hne
  rw [he]
  exact tnorm_pos x (hall x hx)

/-- Dividing the translation column by a positive scalar divides the
translation norm by it. -/
theorem tnorm_rescalePose (s : ℝ) (hs : 0 < s) (p : Pose) :
    tnorm (rescalePose s p) = tnorm p / s := by
  unfold tnorm rescalePose
  have hX : (p 0 3 / s) ^ 2 + (p 1 3 / s) ^ 2 + (p 2 3 / s) ^ 2
      = (p 0 3 ^ 2 + p 1 3 ^ 2 + p 2 3 ^ 2) / s ^ 2 := by ring
  simp only [if_pos rfl, if_true]
  rw [hX, Real.sqrt_div (by positivity), Real.sqrt_sq hs.le]

/-- C1 (counterexample): with masking enabled and the calibrated
convention inactive, a 3-channel image (no alpha) does NOT make the
Frame Loader fail: it silently builds the mask from the image's last
channel (here channel 2, the blue channel, of value 2), contradicting
the claimed fatal configuration error. -/
theorem mask_no_alpha_counterexample :
    exImg3.channels = 3 ∧
    loadFrameMask true false ("images/r_0_color.png") exImg3 exDepthAt 0 0 = 2 ∧
    loadFrameMask true false ("images/r_0_color.png") exImg3 exDepthAt 0 0 =
      exImg3.data 2 0 0 := by
  refine ⟨rfl, ?_, rfl⟩
  decide

/-- C1 (amended): with masking enabled and the calibrated convention
inactive, the mask is always the image's last channel
(`img[..., -1]`) — when no alpha channel exists, no error is raised and
the last color channel silently becomes the mask. -/
theorem mask_no_alpha_uses_last_channel (img_path : String) (img : Img)
    (depthAt : String → ℕ → ℕ → ℚ) :
    loadFrameMask true false img_path img depthAt = img.data (img.channels - 1) :=
  rfl

/-- C2 (counterexample): with BOTH `img_wh` and `img_downscale`
supplied (and a matching aspect ratio), setup does not fail: the
`img_wh` branch wins and resolves a target resolution, contradicting
the claim that supplying both is a fatal configuration error. -/
theorem resolution_both_supplied_ok :
    resolveWH (some (400, 400)) (some 3) 800 800 = Except.ok (400, 400) ∧
    resolveWH (some (400, 400)) (some 3) 800 800 ≠ Except.error SetupErr.keyError ∧
    resolveWH (some (400, 400)) (some 3) 800 800 ≠ Except.error SetupErr.assertionError := by
  have hp : pyRound ((800 : ℚ)) = 800 := by norm_num [pyRound]
  refine ⟨?_, ?_, ?_⟩ <;> simp [resolveWH, hp]

/-- C2 (amended): setup fails with a fatal `KeyError` exactly when
neither `img_wh` nor `img_downscale` is supplied; when `img_wh` is
supplied (alone or together with `img_downscale`) the `img_wh` branch is
taken, subject only to the aspect-ratio assertion; `img_downscale` is
consulted only when `img_wh` is absent. -/
theorem resolution_policy_amended (iwh : Option (ℤ × ℤ)) (ids : Option ℤ) (W H : ℤ) :
    (iwh = none → ids = none → resolveWH iwh ids W H = Except.error SetupErr.keyError) ∧
    (∀ w h : ℤ, iwh = some (w, h) →
      resolveWH iwh ids W H =
        if pyRound ((W : ℚ) / (w : ℚ) * (h : ℚ)) = H then Except.ok (w, h)
        else Except.error SetupErr.assertionError) ∧
    (∀ d : ℤ, iwh = none → ids = some d →
      resolveWH iwh ids W H = Except.ok (Int.fdiv W d, Int.fdiv H d)) := by
  refine ⟨?_, ?_, ?_⟩
  · rintro rfl rfl; rfl
  · rintro w h rfl; rfl
  · rintro d rfl rfl; rfl

/-- C2 (witness): the amended policy at concrete inputs — neither key
supplied fails with `KeyError`; `img_wh` alone succeeds at 800x800
native resolution. -/
theorem resolution_policy_witness :
    resolveWH none none 800 800 = Except.error SetupErr.keyError ∧
    resolveWH (some (400, 400)) none 800 800 = Except.ok (400, 400) :=
  ⟨(resolution_policy_amended none none 800 800).1 rfl rfl,
   by
     have h := (resolution_policy_amended (some (400, 400)) none 800 800).2.1 400 400 rfl
     rw [h, if_pos (by norm_num [pyRound])]⟩

/-- C7: with masking enabled and the calibrated convention active, the
mask is derived from the sibling depth resource (path substitution
"images"→"depths", "color.png"→"depth.tiff"); it is 0 where depth is 0
and 1 elsewhere, and it is independent of the image — any alpha channel
present is ignored (depth takes priority). -/
theorem mask_depth_priority (img_path : String) (img img' : Img)
    (depthAt : String → ℕ → ℕ → ℚ) :
    loadFrameMask true true img_path img depthAt =
      (fun r c => if depthAt (depthPath img_path) r c = 0 then 0 else 1) ∧
    loadFrameMask true true img_path img depthAt =
      loadFrameMask true true img_path img' depthAt :=
  ⟨rfl, rfl⟩

/-- C8: the streaming view's iteration never terminates — after any
number n of pulls, the (n+1)-th pull still produces a record, the record
is the empty marker, and the generator state is unchanged. -/
theorem iter_never_terminates (n : ℕ) :
    iterPull n () = some (Record.empty, ()) := by
  induction n with
  | zero => rfl
  | succ k ih => simpa [iterPull, blenderIterNext] using ih

/-- C9: the indexed view's lookup is total over all integers — for every
index, including -1 and the reported length itself, it returns the
record {index := index} with no bounds check, and it never touches the
stored data (the result is independent of the dataset contents). -/
theorem getitem_total (d d' : BlenderData) (index : ℤ) :
    blenderGetitem d index = Record.indexed index ∧
    blenderGetitem d (-1) = Record.indexed (-1) ∧
    blenderGetitem d ((blenderLen d : ℤ)) = Record.indexed ((blenderLen d : ℤ)) ∧
    blenderGetitem d index = blenderGetitem d' index :=
  ⟨rfl, rfl, rfl, rfl⟩

/-- C10: the predict split's indexed view is constructed over the train
split identifier — both at stage 'predict' and at stage None — and it
carries the same split string as the streaming training view built at
stage 'fit'. -/
theorem predict_uses_train_split (cfg : DMConfig) :
    (dmSetup cfg (some ("predict"))).predict_dataset =
      some (DatasetKind.indexed, cfg.train_split) ∧
    (dmSetup cfg none).predict_dataset =
      some (DatasetKind.indexed, cfg.train_split) ∧
    (dmSetup cfg (some ("predict"))).predict_dataset =
      ((dmSetup cfg (some ("fit"))).train_dataset).map
        (fun kv => (DatasetKind.indexed, kv.2)) := by
  refine ⟨?_, ?_, ?_⟩ <;> simp [dmSetup]

/-- C4 (counterexample): with every calibrated field missing,
`camera_angle_x = 1` and odd target resolution 801x801, the derived
principal point is (400, 400) — the floor `w // 2` — and NOT the exact
image center (w/2, h/2) = (400.5, 400.5) the claim states.
(`fun x => x` instantiates the abstract tangent collaborator.) -/
theorem fov_principal_point_odd_counterexample :
    (resolveIntrinsics (fun x => x) metaOdd 801 801 =
      Except.ok ({ focal_x := 801, focal_y := 801, cx := 400, cy := 400,
                   k1 := 0, k2 := 0 }, false)) ∧
    (400 : ℚ) ≠ (801 : ℚ) / 2 := by
  constructor
  · show Except.ok _ = _
    norm_num [Int.fdiv]
  · norm_num

/-- C4 (amended): whenever any calibrated field is missing and
`camera_angle_x` is present, the intrinsics are derived with
`focal_x = focal_y = 0.5 * w / tan(0.5 * camera_angle_x)`,
principal point `(w // 2, h // 2)` (Python floor division — equal to
the exact image center only when w and h are even), and `k1 = k2 = 0`. -/
theorem fov_intrinsics_amended (t : ℚ → ℚ) (m : MetaDoc) (w h : ℤ) (a : ℚ)
    (hmiss : m.fl_x = none ∨ m.fl_y = none ∨ m.cx = none ∨ m.cy = none ∨
      m.k1 = none ∨ m.k2 = none)
    (hang : m.camera_angle_x = some a) :
    resolveIntrinsics t m w h = Except.ok
      ({ focal_x := 1/2 * (w : ℚ) / t (1/2 * a),
         focal_y := 1/2 * (w : ℚ) / t (1/2 * a),
         cx := ((Int.fdiv w 2 : ℤ) : ℚ),
         cy := ((Int.fdiv h 2 : ℤ) : ℚ),
         k1 := 0, k2 := 0 }, false) := by
  unfold resolveIntrinsics
  rw [calibratedFields_eq_none m hmiss, hang]

/-- C4 (witness): the amended derivation at concrete inputs —
`camera_angle_x = 2`, target 640x480, tangent collaborator `fun x => x`:
focal 320, principal point (320, 240), zero distortion. -/
theorem fov_intrinsics_witness :
    resolveIntrinsics (fun x => x) metaFOV 640 480 =
      Except.ok ({ focal_x := 320, focal_y := 320, cx := 320, cy := 240,
                   k1 := 0, k2 := 0 }, false) := by
  have h := fov_intrinsics_amended (fun x => x) metaFOV 640 480 2 (Or.inl rfl) rfl
  rw [h]
  norm_num [Int.fdiv]

/-- C5: intrinsics resolution is all-or-nothing — if any calibrated
field is absent, the result is identical to resolving a document with
ALL calibrated fields scrubbed (so no partially-read calibrated value
survives), and any successful resolution reports the fallback flag
(`c3vd_data = false`). -/
theorem intrinsics_all_or_nothing (t : ℚ → ℚ) (m : MetaDoc) (w h : ℤ)
    (hmiss : m.fl_x = none ∨ m.fl_y = none ∨ m.cx = none ∨ m.cy = none ∨
      m.k1 = none ∨ m.k2 = none) :
    resolveIntrinsics t m w h = resolveIntrinsics t (scrubCalibrated m) w h ∧
    ∀ intr c3vd, resolveIntrinsics t m w h = Except.ok (intr, c3vd) → c3vd = false := by
  have hm : calibratedFields m = none := calibratedFields_eq_none m hmiss
  have hs : calibratedFields (scrubCalibrated m) = none :=
    calibratedFields_eq_none _ (Or.inl rfl)
  constructor
  · unfold resolveIntrinsics
    rw [hm, hs]
    rfl
  · intro intr c3vd hok
    unfold resolveIntrinsics at hok
    rw [hm] at hok
    cases hca : m.camera_angle_x with
    | none => rw [hca] at hok; exact absurd hok (by simp)
    | some a =>
      rw [hca] at hok
      simp only [Except.ok.injEq, Prod.mk.injEq] at hok
      exact hok.2.symm

/-- C5 (witness): the all-or-nothing property at a concrete document
with `fl_x, cx, cy, k1, k2` present but `fl_y` missing — resolution
coincides with the fully scrubbed document. -/
theorem intrinsics_all_or_nothing_witness :
    resolveIntrinsics (fun x => x) metaPartial 10 10 =
      resolveIntrinsics (fun x => x) (scrubCalibrated metaPartial) 10 10 :=
  (intrinsics_all_or_nothing (fun x => x) metaPartial 10 10 (Or.inr (Or.inl rfl))).1

/-- C3 (counterexample): a scene whose only frame has the zero
translation (rotation block nonzero) assembles without error, yet under
the auto-scale policy the computed minimum translation norm — used as
the divisor — is 0, not strictly positive as claimed. -/
theorem auto_scale_zero_translation_counterexample :
    sceneScale (some 0) [zPose] = 0 ∧ ¬ 0 < sceneScale (some 0) [zPose] := by
  have h : sceneScale (some 0) [zPose] = 0 := by
    simp [sceneScale, minNorm, tnorm, zPose]
  exact ⟨h, by rw [h]; exact lt_irrefl 0⟩

/-- C3 (amended): the rescale factor is 1 when `cam_downscale` is
absent and equals the configured value when the key is truthy (so it is
positive whenever that value is); under the auto-scale policy it equals
the minimum translation norm, which is strictly positive provided every
frame's pose translation is nonzero — a zero translation makes the
divisor 0. -/
theorem scene_scale_positivity_amended (cd : Option ℝ) (poses : List Pose) :
    (cd = none → sceneScale cd poses = 1) ∧
    (∀ v : ℝ, cd = some v → v ≠ 0 → sceneScale cd poses = v) ∧
    (cd = some 0 → poses ≠ [] → (∀ p ∈ poses, ∃ i : Fin 3, p i 3 ≠ 0) →
      0 < sceneScale cd poses) := by
  refine ⟨?_, ?_, ?_⟩
  · rintro rfl; rfl
  · rintro v rfl hv
    simp [sceneScale, hv]
  · rintro rfl hne hall
    have h : sceneScale (some 0) poses = minNorm poses := by simp [sceneScale]
    rw [h]
    exact minNorm_pos poses hne hall

/-- C3 (witness): the amended positivity at a concrete input — a
single frame with translation (1, 0, 0) under the auto-scale policy
yields a strictly positive scale. -/
theorem scene_scale_positivity_witness :
    0 < sceneScale (some 0) [pOne] :=
  (scene_scale_positivity_amended (some 0) [pOne]).2.2 rfl (by simp)
    (by
      intro p hp
      rw [List.mem_singleton] at hp
      subst hp
      exact ⟨0, by norm_num [pOne]⟩)

/-- C6 (counterexample): with a single all-zero pose, the auto-scale
divisor is 0 and after the in-place division NO frame has translation
norm exactly 1, contradicting the claimed guarantee. (In the source the
division by 0 produces NaN translations, whose norm is likewise not 1;
the embedding's division-by-zero convention yields 0.) -/
theorem auto_scale_unit_norm_counterexample :
    sceneScale (some 0) [zAll] = 0 ∧
    ¬ ∃ q ∈ rescaleTranslations (sceneScale (some 0) [zAll]) [zAll], tnorm q = 1 := by
  have hs : sceneScale (some 0) [zAll] = 0 := by
    simp [sceneScale, minNorm, tnorm, zAll]
  refine ⟨hs, ?_⟩
  rintro ⟨q, hq, hn⟩
  rw [hs] at hq
  simp only [rescaleTranslations, List.map_cons, List.map_nil,
    List.mem_singleton] at hq
  subst hq
  norm_num [tnorm, rescalePose, zAll] at hn

/-- C6 (amended): under the auto-scale policy the scale equals the
minimum translation norm and every pose's translation column is divided
by it; PROVIDED that minimum is strictly positive (every frame's
translation nonzero), at least one rescaled frame has translation norm
exactly 1 — the guarantee fails when a zero translation makes the
divisor 0. -/
theorem auto_scale_unit_norm_amended (poses : List Pose) (hne : poses ≠ [])
    (hall : ∀ p ∈ poses, ∃ i : Fin 3, p i 3 ≠ 0) :
    sceneScale (some 0) poses = minNorm poses ∧
    rescaleTranslations (sceneScale (some 0) poses) poses =
      poses.map (rescalePose (minNorm poses)) ∧
    ∃ q ∈ rescaleTranslations (sceneScale (some 0) poses) poses, tnorm q = 1 := by
  have hsc : sceneScale (some 0) poses = minNorm poses := by simp [sceneScale]
  have hpos : 0 < minNorm poses := minNorm_pos poses hne hall
  obtain ⟨x, hx, he⟩ := minNorm_attained poses hne
  refine ⟨hsc, by rw [hsc]; rfl, ?_⟩
  refine ⟨rescalePose (minNorm poses) x, ?_, ?_⟩
  · rw [hsc]
    exact List.mem_map_of_mem _ hx
  · rw [tnorm_rescalePose _ hpos, ← he, div_self (ne_of_gt hpos)]

/-- C6 (witness): the amended guarantee at a concrete input — one
frame with translation (0, 2, 0): after auto-scale rescaling some frame
has translation norm exactly 1. -/
theorem auto_scale_unit_norm_witness :
    ([pTwo] : List Pose) ≠ [] ∧
    ∃ q ∈ rescaleTranslations (sceneScale (some 0) [pTwo]) [pTwo], tnorm q = 1 :=
  ⟨by simp,
   (auto_scale_unit_norm_amended [pTwo] (by simp)
      (by
        intro p hp
        rw [List.mem_singleton] at hp
        subst hp
        exact ⟨1, by norm_num [pTwo]⟩)).2.2⟩
